import Mathlib

/-!
Shallow embedding of the real-time collaboration core of the repository:
the element lock manager (backend/collaboration/consumers.py together with
the DiagramLock table of backend/collaboration/models.py), the presence
store and cleanup sweep (backend/umlcdp/backend/collaboration/utils.py),
and the notification service
(backend/umlcdp/backend/collaboration/notifications.py).

Time is modelled in minutes as Nat; user ids and diagram ids as Nat;
element ids as String, matching the free-form CharField element_id of
DiagramLock. Database tables are modelled as lists of rows.
-/

namespace Collab

/-- Locks expire 30 minutes after locked_at: cleanup_expired_locks in
utils.py uses the cutoff now minus 30 minutes. -/
def LOCK_EXPIRY_MINUTES : Nat := 30

/-- Presence entries count as active when last_seen is within 5 minutes
(get_active_users and cleanup_inactive_users in utils.py). -/
def PRESENCE_WINDOW_MINUTES : Nat := 5

/-- A row of the DiagramLock table (collaboration/models.py lines 224-240):
element_id is a free-form string, diagram_id a UUID (modelled as Nat),
user the owner's id and locked_at the acquisition timestamp. There is no
expires_at column; expiry is derived from locked_at by the sweep. -/
structure LockRec where
  element_id : String
  diagram_id : Nat
  user : Nat
  locked_at : Nat
deriving DecidableEq

/-- The DiagramLock table, as a list of rows. -/
abbrev LockStore := List LockRec

/-- Result of a Django QuerySet.get call: the unique match, DoesNotExist,
or MultipleObjectsReturned. -/
inductive GetResult where
  | found (l : LockRec)
  | notFound
  | multiple
deriving DecidableEq

/-- Collapse a list of matching rows the way QuerySet.get does. -/
def getOne (ls : List LockRec) : GetResult :=
  match ls with
  | [] => .notFound
  | [l] => .found l
  | _ => .multiple

/-- DiagramLock.objects.get with element_id as the only filter, exactly as
in check_element_lock and acquire_element_lock (consumers.py lines 351-379):
the diagram id takes no part in the lookup. -/
def getLockByElement (store : LockStore) (eid : String) : GetResult :=
  getOne (store.filter (fun l => l.element_id == eid))

/-- check_element_lock (consumers.py lines 351-358): true when a lock on
the element exists and belongs to a different user; DoesNotExist yields
false; MultipleObjectsReturned propagates as an exception. -/
def check_element_lock (store : LockStore) (selfUser : Nat) (eid : String) :
    Except String Bool :=
  match getLockByElement store eid with
  | .found l => .ok (l.user != selfUser)
  | .notFound => .ok false
  | .multiple => .error "MultipleObjectsReturned"

/-- The refresh performed on the owner's re-acquisition: the row matched by
element_id gets locked_at set to the current time (consumers.py lines
365-369 assign existing_lock.locked_at and save). -/
def lockRefresh (eid : String) (now : Nat) (x : LockRec) : LockRec :=
  if x.element_id == eid then { x with locked_at := now } else x

/-- acquire_element_lock (consumers.py lines 360-379): look the lock up by
element_id alone; if it belongs to the caller, refresh locked_at and
succeed; if it belongs to someone else, fail with no state change; if no
lock exists, create one for the caller's diagram; an ambiguous lookup
raises MultipleObjectsReturned. -/
def acquire_element_lock (store : LockStore) (selfUser selfDiagram : Nat)
    (eid : String) (now : Nat) : Except String (Bool × LockStore) :=
  match getLockByElement store eid with
  | .found l =>
    if l.user == selfUser then
      .ok (true, store.map (lockRefresh eid now))
    else
      .ok (false, store)
  | .notFound =>
    .ok (true, ⟨eid, selfDiagram, selfUser, now⟩ :: store)
  | .multiple => .error "MultipleObjectsReturned"

/-- release_element_lock (consumers.py lines 381-387): delete every row
matching both the element id and the calling user. -/
def release_element_lock (store : LockStore) (selfUser : Nat) (eid : String) :
    LockStore :=
  store.filter (fun l => !(l.element_id == eid && l.user == selfUser))

/-- release_user_locks (consumers.py lines 389-395): on disconnect, delete
every lock of the user within the diagram. -/
def release_user_locks (store : LockStore) (selfUser selfDiagram : Nat) :
    LockStore :=
  store.filter (fun l => !(l.user == selfUser && l.diagram_id == selfDiagram))

/-- The optional diagram filter of cleanup_expired_locks and
force_unlock_element in utils.py. -/
def diagramMatches (diagram? : Option Nat) (l : LockRec) : Bool :=
  match diagram? with
  | some d => l.diagram_id == d
  | none => true

/-- The row predicate of the expiry sweep: locked_at older than the cutoff
now minus 30 minutes, restricted to one diagram when asked. -/
def sweepMatch (diagram? : Option Nat) (cutoff : Nat) (l : LockRec) : Bool :=
  decide (l.locked_at < cutoff) && diagramMatches diagram? l

/-- cleanup_expired_locks (utils.py lines 41-62): collect the rows whose
locked_at is before now minus 30 minutes, delete them, broadcast an unlock
for each and return the deleted count. Result: the surviving table, the
list of released (broadcast) locks, and the count. -/
def cleanup_expired_locks (store : LockStore) (now : Nat)
    (diagram? : Option Nat) : LockStore × List LockRec × Nat :=
  let cutoff := now - LOCK_EXPIRY_MINUTES
  let expired := store.filter (sweepMatch diagram? cutoff)
  (store.filter (fun l => !(sweepMatch diagram? cutoff l)), expired,
    expired.length)

/-- force_unlock_element (utils.py lines 77-95): take the first row
matching diagram and element (and optionally a user), delete it and report
true; report false when none matches. -/
def force_unlock_element (store : LockStore) (d : Nat) (eid : String)
    (user? : Option Nat) : LockStore × Bool :=
  let q := store.filter (fun l =>
    l.diagram_id == d && l.element_id == eid &&
      (match user? with | some u => l.user == u | none => true))
  match q.head? with
  | some lock => (store.erase lock, true)
  | none => (store, false)

/-- Mutual exclusion of the DiagramLock table: no two rows share the same
(element_id, diagram_id) pair, the unique_together constraint of the model. -/
def mutualExclusion (store : LockStore) : Prop :=
  List.Pairwise
    (fun a b => ¬(a.element_id = b.element_id ∧ a.diagram_id = b.diagram_id))
    store

/-- A reply produced while handling one intent: either an error sent to the
sender only, or an event broadcast to the diagram room. -/
inductive Reply where
  | errorReply (msg : String)
  | broadcastUpdate (eid : String)
  | broadcastDelete (eid : String)
  | broadcastLock (eid : String)
  | broadcastUnlock (eid : String)
deriving DecidableEq

/-- handle_element_update (consumers.py lines 102-124): reject a missing
payload; reject when the element is locked by another user; otherwise
broadcast the update. The handler performs no database write, so the store
is returned unchanged on every path; a lookup exception propagates. -/
def handle_element_update (store : LockStore) (selfUser : Nat)
    (elemId? : Option String) : Except String (Reply × LockStore) :=
  match elemId? with
  | none => .ok (.errorReply "Missing element data", store)
  | some eid =>
    match check_element_lock store selfUser eid with
    | .error err => .error err
    | .ok true => .ok (.errorReply "Element is locked by another user", store)
    | .ok false => .ok (.broadcastUpdate eid, store)

/-- handle_element_delete (consumers.py lines 144-166): same gating as the
update handler. -/
def handle_element_delete (store : LockStore) (selfUser : Nat)
    (elemId? : Option String) : Except String (Reply × LockStore) :=
  match elemId? with
  | none => .ok (.errorReply "Missing element ID", store)
  | some eid =>
    match check_element_lock store selfUser eid with
    | .error err => .error err
    | .ok true => .ok (.errorReply "Element is locked by another user", store)
    | .ok false => .ok (.broadcastDelete eid, store)

/-- handle_element_lock (consumers.py lines 185-205): try to acquire; on
success broadcast the lock event; on failure send the error to the sender
only. -/
def handle_element_lock (store : LockStore) (selfUser selfDiagram : Nat)
    (elemId? : Option String) (now : Nat) : Except String (Reply × LockStore) :=
  match elemId? with
  | none => .ok (.errorReply "Missing element ID", store)
  | some eid =>
    match acquire_element_lock store selfUser selfDiagram eid now with
    | .error err => .error err
    | .ok (true, s) => .ok (.broadcastLock eid, s)
    | .ok (false, s) => .ok (.errorReply "Element is already locked", s)

/-- The receive dispatcher's exception guard around the update handler
(consumers.py lines 75-100): any exception is answered with the literal
error reply Internal error, with no state change. -/
def receive_element_update (store : LockStore) (selfUser : Nat)
    (elemId? : Option String) : Reply × LockStore :=
  match handle_element_update store selfUser elemId? with
  | .ok r => r
  | .error _ => (.errorReply "Internal error", store)

/-- The same exception guard around the delete handler. -/
def receive_element_delete (store : LockStore) (selfUser : Nat)
    (elemId? : Option String) : Reply × LockStore :=
  match handle_element_delete store selfUser elemId? with
  | .ok r => r
  | .error _ => (.errorReply "Internal error", store)

/-- A row of the ActiveUser table (collaboration/models.py lines 204-218):
one presence entry per (user, diagram), last_seen set on creation. -/
structure ActiveUserRec where
  user : Nat
  diagram_id : Nat
  last_seen : Nat
deriving DecidableEq

/-- add_active_user (consumers.py lines 305-312): get_or_create on
(user, diagram). When a row already exists it is returned untouched:
get_or_create performs no save, so last_seen keeps its old value; only a
freshly created row carries last_seen = now. -/
def add_active_user (store : List ActiveUserRec) (u d now : Nat) :
    List ActiveUserRec :=
  if store.any (fun a => a.user == u && a.diagram_id == d) then store
  else ⟨u, d, now⟩ :: store

/-- remove_active_user (consumers.py lines 314-320): delete the entry. -/
def remove_active_user (store : List ActiveUserRec) (u d : Nat) :
    List ActiveUserRec :=
  store.filter (fun a => !(a.user == u && a.diagram_id == d))

/-- CollaborationManager.get_active_users (utils.py lines 20-39), the
windowed ListActive: entries of the diagram whose last_seen is at or after
now minus 5 minutes. -/
def get_active_users (store : List ActiveUserRec) (d now : Nat) :
    List ActiveUserRec :=
  let cutoff := now - PRESENCE_WINDOW_MINUTES
  store.filter (fun a => a.diagram_id == d && decide (cutoff ≤ a.last_seen))

/-- A row of the Notification table (collaboration/models.py lines
246-294): ntype is the notification_type discriminant. The list is kept
most-recent-first, matching the model ordering by descending created_at. -/
structure NotifRec where
  id : Nat
  recipient : Nat
  ntype : String
  title : String
  message : String
  is_read : Bool
  read_at : Option Nat
  created_at : Nat
deriving DecidableEq

/-- The Notification table. -/
abbrev NotifStore := List NotifRec

/-- send_realtime_notification (notifications.py lines 45-73): the
serialize-and-publish step is wrapped in its own exception handler, so a
transport failure is logged and swallowed, never propagated. -/
def send_realtime_notification (publishResult : Except String Unit) :
    Except String Unit :=
  match publishResult with
  | .ok _ => .ok ()
  | .error _ => .ok ()

/-- create_notification (notifications.py lines 19-43): persist the record,
then push it in real time. persistOk models whether the database insert
raises; publishResult models the transport outcome. The outer exception
handler returns none on a failure but performs no rollback: a row inserted
before the failure stays in the table (there is no transaction here). -/
def create_notification (store : NotifStore) (persistOk : Bool)
    (fresh recipient : Nat) (ntype title message : String) (now : Nat)
    (publishResult : Except String Unit) : NotifStore × Option NotifRec :=
  if persistOk then
    let n : NotifRec := ⟨fresh, recipient, ntype, title, message, false,
      none, now⟩
    match send_realtime_notification publishResult with
    | .ok _ => (n :: store, some n)
    | .error _ => (n :: store, none)
  else (store, none)

/-- get_unread_count (notifications.py lines 202-204). -/
def get_unread_count (store : NotifStore) (user : Nat) : Nat :=
  (store.filter (fun n => n.recipient == user && !n.is_read)).length

/-- get_notifications (notifications.py lines 206-216): the recipient's
rows, optionally filtered by notification_type and read state, truncated
to the limit, most-recent-first. -/
def get_notifications (store : NotifStore) (user : Nat) (limit : Nat)
    (ntype? : Option String) (isRead? : Option Bool) : NotifStore :=
  (store.filter (fun n => n.recipient == user
    && (match ntype? with | some t => n.ntype == t | none => true)
    && (match isRead? with | some b => n.is_read == b | none => true))).take
    limit

/-- The id filter of mark_notifications_read: the source guards with a
Python truthiness test, so an omitted list and an empty list both select
every unread notification of the user. -/
def notifTargeted (ids? : Option (List Nat)) (n : NotifRec) : Bool :=
  match ids? with
  | some ids => if ids.isEmpty then true else ids.contains n.id
  | none => true

/-- The row filter of mark_notifications_read: the user's unread rows,
restricted to the requested ids. -/
def notifMatches (user : Nat) (ids? : Option (List Nat)) (n : NotifRec) :
    Bool :=
  n.recipient == user && !n.is_read && notifTargeted ids? n

/-- The bulk update applied by mark_notifications_read to a matching row. -/
def markReadUpdate (user : Nat) (ids? : Option (List Nat)) (now : Nat)
    (n : NotifRec) : NotifRec :=
  if notifMatches user ids? n then { n with is_read := true, read_at := some now }
  else n

/-- mark_notifications_read (notifications.py lines 187-200): one bulk
update setting is_read and read_at on the matching rows, returning the
number of rows the filter selected. -/
def mark_notifications_read (store : NotifStore) (user : Nat)
    (ids? : Option (List Nat)) (now : Nat) : NotifStore × Nat :=
  (store.map (markReadUpdate user ids? now),
    (store.filter (notifMatches user ids?)).length)

/-! ## Helper lemmas -/

/-- Inversion for getOne: a found result pins the row list down to a
singleton. -/
theorem getOne_found_iff (ls : List LockRec) (l : LockRec) :
    getOne ls = GetResult.found l ↔ ls = [l] := by
  cases ls with
  | nil => simp [getOne]
  | cons a t =>
    cases t with
    | nil => simp [getOne]
    | cons b t2 => simp [getOne]

/-- Inversion for getOne: a DoesNotExist result means no row matched. -/
theorem getOne_notFound_iff (ls : List LockRec) :
    getOne ls = GetResult.notFound ↔ ls = [] := by
  cases ls with
  | nil => simp [getOne]
  | cons a t =>
    cases t with
    | nil => simp [getOne]
    | cons b t2 => simp [getOne]

/-- Two distinct matching rows force the MultipleObjectsReturned outcome. -/
theorem getOne_multiple_of_two (xs : List LockRec) (a b : LockRec)
    (ha : a ∈ xs) (hb : b ∈ xs) (hab : a ≠ b) :
    getOne xs = GetResult.multiple := by
  cases xs with
  | nil => cases ha
  | cons x t =>
    cases t with
    | nil =>
      have ha' : a = x := by simpa using ha
      have hb' : b = x := by simpa using hb
      exact absurd (ha'.trans hb'.symm) hab
    | cons y t2 => rfl

/-- The refresh map keeps the element id of every row. -/
theorem lockRefresh_element_id (eid : String) (now : Nat) (x : LockRec) :
    (lockRefresh eid now x).element_id = x.element_id := by
  unfold lockRefresh
  split <;> rfl

/-- The refresh map keeps the diagram id of every row. -/
theorem lockRefresh_diagram_id (eid : String) (now : Nat) (x : LockRec) :
    (lockRefresh eid now x).diagram_id = x.diagram_id := by
  unfold lockRefresh
  split <;> rfl

/-- The refresh map keeps the owner of every row. -/
theorem lockRefresh_user (eid : String) (now : Nat) (x : LockRec) :
    (lockRefresh eid now x).user = x.user := by
  unfold lockRefresh
  split <;> rfl

/-- Filtering commutes with a map that preserves the filter predicate. -/
theorem filter_map_of_pres {α : Type} (f : α → α) (p : α → Bool)
    (hp : ∀ a, p (f a) = p a) (l : List α) :
    (l.map f).filter p = (l.filter p).map f := by
  induction l with
  | nil => rfl
  | cons a t ih =>
    simp only [List.map_cons, List.filter_cons, hp a]
    split
    · simp [ih]
    · simp [ih]

/-- Mutual exclusion survives any filtering of the table. -/
theorem mutualExclusion_filter (store : LockStore) (p : LockRec → Bool)
    (h : mutualExclusion store) : mutualExclusion (store.filter p) :=
  List.Pairwise.sublist (List.filter_sublist store) h

/-- Mutual exclusion survives erasing a row from the table. -/
theorem mutualExclusion_erase (store : LockStore) (l : LockRec)
    (h : mutualExclusion store) : mutualExclusion (store.erase l) :=
  List.Pairwise.sublist (List.erase_sublist l store) h

/-- Mutual exclusion survives the owner-refresh map, which changes only
locked_at. -/
theorem mutualExclusion_map_refresh (store : LockStore) (eid : String)
    (now : Nat) (h : mutualExclusion store) :
    mutualExclusion (store.map (lockRefresh eid now)) := by
  unfold mutualExclusion at h ⊢
  rw [List.pairwise_map]
  refine h.imp ?_
  intro a b hab hcon
  refine hab ?_
  rw [← lockRefresh_element_id eid now a, ← lockRefresh_element_id eid now b,
    ← lockRefresh_diagram_id eid now a, ← lockRefresh_diagram_id eid now b]
  exact hcon

/-! ## Claim theorems -/

/-- Claim C1: for every diagram D and element E at most one DiagramLock row
exists for (D, E), and every lock-manager operation — TryAcquire
(acquire_element_lock), Release (release_element_lock), ForceRelease
(force_unlock_element) and SweepExpired (cleanup_expired_locks) — preserves
this mutual-exclusion invariant. -/
theorem C1_mutual_exclusion_preserved (store : LockStore)
    (h : mutualExclusion store) :
    (∀ u d eid now res, acquire_element_lock store u d eid now = Except.ok res →
      mutualExclusion res.2) ∧
    (∀ u eid, mutualExclusion (release_element_lock store u eid)) ∧
    (∀ d eid user?, mutualExclusion (force_unlock_element store d eid user?).1) ∧
    (∀ now diagram?, mutualExclusion (cleanup_expired_locks store now diagram?).1) := by
  refine ⟨?_, ?_, ?_, ?_⟩
  · intro u d eid now res hres
    unfold acquire_element_lock at hres
    cases hget : getLockByElement store eid with
    | found l =>
      simp only [hget] at hres
      by_cases hu : (l.user == u) = true
      · rw [if_pos hu] at hres
        cases hres
        exact mutualExclusion_map_refresh store eid now h
      · rw [if_neg hu] at hres
        cases hres
        exact h
    | notFound =>
      simp only [hget] at hres
      cases hres
      have hnil : store.filter (fun l => l.element_id == eid) = [] :=
        (getOne_notFound_iff _).mp hget
      have hnone : ∀ x ∈ store, ¬(x.element_id == eid) = true := by
        intro x hx hpx
        have : x ∈ store.filter (fun l => l.element_id == eid) :=
          List.mem_filter.mpr ⟨hx, hpx⟩
        rw [hnil] at this
        cases this
      unfold mutualExclusion
      rw [List.pairwise_cons]
      constructor
      · intro x hx hcon
        refine hnone x hx ?_
        have : x.element_id = eid := hcon.1.symm
        simp [this]
      · exact h
    | multiple =>
      simp only [hget] at hres
      cases hres
  · intro u eid
    exact mutualExclusion_filter store _ h
  · intro d eid user?
    unfold force_unlock_element
    cases hq : (store.filter (fun l =>
        l.diagram_id == d && l.element_id == eid &&
          (match user? with | some u => l.user == u | none => true))).head? with
    | some lock =>
      simp only [hq]
      exact mutualExclusion_erase store lock h
    | none =>
      simp only [hq]
      exact h
  · intro now diagram?
    exact mutualExclusion_filter store _ h

/-- Witness for C1 at a concrete two-row table. -/
theorem C1_witness :
    mutualExclusion (Collab.release_element_lock
      [⟨"E1", 1, 1, 0⟩, ⟨"E2", 1, 2, 0⟩] 1 "E1") := by
  have h : mutualExclusion ([⟨"E1", 1, 1, 0⟩, ⟨"E2", 1, 2, 0⟩] : LockStore) := by
    unfold mutualExclusion
    simp
  exact (C1_mutual_exclusion_preserved _ h).2.1 1 "E1"

/-- Claim C2: when the lock on an element is held by the caller, TryAcquire
always succeeds — it returns true and refreshes the row by setting
locked_at to the current time, so the effective expiry locked_at plus 30
minutes restarts at the re-acquisition time; whenever time has strictly
advanced since the previous acquisition, the expiry strictly extends. -/
theorem C2_owner_reacquire_refreshes (store : LockStore) (eid : String)
    (u d now : Nat) (l : LockRec)
    (hget : getLockByElement store eid = GetResult.found l) (hu : l.user = u) :
    acquire_element_lock store u d eid now =
      Except.ok (true, store.map (lockRefresh eid now)) ∧
    getLockByElement (store.map (lockRefresh eid now)) eid =
      GetResult.found { l with locked_at := now } ∧
    (l.locked_at < now →
      l.locked_at + LOCK_EXPIRY_MINUTES < now + LOCK_EXPIRY_MINUTES) := by
  have hfil : store.filter (fun x => x.element_id == eid) = [l] :=
    (getOne_found_iff _ l).mp hget
  have hl : (l.element_id == eid) = true := by
    have hmem : l ∈ store.filter (fun x => x.element_id == eid) := by
      rw [hfil]
      exact List.mem_singleton_self l
    exact (List.mem_filter.mp hmem).2
  refine ⟨?_, ?_, ?_⟩
  · unfold acquire_element_lock
    simp only [hget]
    have hbeq : (l.user == u) = true := by simp [hu]
    rw [if_pos hbeq]
  · unfold getLockByElement
    rw [filter_map_of_pres (lockRefresh eid now) (fun x => x.element_id == eid)
      (fun a => by simp only [lockRefresh_element_id]) store]
    rw [hfil]
    have : lockRefresh eid now l = { l with locked_at := now } := by
      unfold lockRefresh
      rw [if_pos hl]
    rw [List.map_singleton, this]
    rfl
  · intro hlt
    exact Nat.add_lt_add_right hlt LOCK_EXPIRY_MINUTES

/-- Witness for C2: user 1 re-acquires its own lock at time 10 and the
row's locked_at becomes 10. -/
theorem C2_witness :
    acquire_element_lock [⟨"E1", 1, 1, 0⟩] 1 1 "E1" 10 =
      Except.ok (true, [⟨"E1", 1, 1, 10⟩]) ∧
    (0 : Nat) + LOCK_EXPIRY_MINUTES < 10 + LOCK_EXPIRY_MINUTES := by
  have h := C2_owner_reacquire_refreshes [⟨"E1", 1, 1, 0⟩] "E1" 1 1 10
    ⟨"E1", 1, 1, 0⟩ (by decide) rfl
  refine ⟨?_, h.2.2 (by decide)⟩
  have h1 := h.1
  simpa [lockRefresh] using h1

/-- A table with no row for the element makes the lookup report
DoesNotExist. -/
theorem getLockByElement_notFound_of_no_match (s : LockStore) (eid : String)
    (h : ∀ x ∈ s, ¬(x.element_id == eid) = true) :
    getLockByElement s eid = GetResult.notFound := by
  have hnil : s.filter (fun x => x.element_id == eid) = [] := by
    rw [List.eq_nil_iff_forall_not_mem]
    intro a ha
    exact h a (List.mem_filter.mp ha).1 (List.mem_filter.mp ha).2
  unfold getLockByElement
  rw [hnil]
  rfl

/-- On DoesNotExist, TryAcquire creates the caller's lock and succeeds. -/
theorem acquire_creates_of_notFound (s : LockStore) (w d : Nat) (eid : String)
    (now : Nat) (h : getLockByElement s eid = GetResult.notFound) :
    acquire_element_lock s w d eid now =
      Except.ok (true, ⟨eid, d, w, now⟩ :: s) := by
  unfold acquire_element_lock
  simp [h]

/-- Claim C3: while a lock is held by user V and unexpired, TryAcquire by a
different user U fails — handle_element_lock answers with the already
locked error to the sender — and the table is returned completely
unchanged: same owner, same locked_at, hence the same derived expiry. -/
theorem C3_nonowner_acquire_no_change (store : LockStore) (eid : String)
    (u v d now : Nat) (l : LockRec)
    (hget : getLockByElement store eid = GetResult.found l) (hv : l.user = v)
    (hne : v ≠ u) (hfresh : now ≤ l.locked_at + LOCK_EXPIRY_MINUTES) :
    acquire_element_lock store u d eid now = Except.ok (false, store) ∧
    handle_element_lock store u d (some eid) now =
      Except.ok (Reply.errorReply "Element is already locked", store) := by
  have hbeq : (l.user == u) = false := by
    rw [hv]
    simp [hne]
  have hacq : acquire_element_lock store u d eid now =
      Except.ok (false, store) := by
    unfold acquire_element_lock
    simp [hget, hbeq]
  exact ⟨hacq, by simp [handle_element_lock, hacq]⟩

/-- Witness for C3: user 2 cannot take the unexpired lock of user 1 and the
table is untouched. -/
theorem C3_witness :
    acquire_element_lock [⟨"E1", 1, 1, 0⟩] 2 1 "E1" 10 =
      Except.ok (false, [⟨"E1", 1, 1, 0⟩]) := by
  exact (C3_nonowner_acquire_no_change [⟨"E1", 1, 1, 0⟩] "E1" 2 1 1 10
    ⟨"E1", 1, 1, 0⟩ (by decide) rfl (by decide) (by decide)).1

/-- Claim C4 counterexample: the claim asserts that once a lock's expiry
time has passed, the immediately following TryAcquire by any user
succeeds. In the code, acquire_element_lock never consults expiry: with
the lock of user 1 acquired at time 0 and the clock at 100 — far past the
30-minute expiry — TryAcquire by user 2 still fails and the stale row
survives. Only the cleanup sweep removes expired locks. -/
theorem C4_counterexample :
    (0 : Nat) + LOCK_EXPIRY_MINUTES < 100 ∧
    acquire_element_lock [⟨"E1", 1, 1, 0⟩] 2 1 "E1" 100 =
      Except.ok (false, [⟨"E1", 1, 1, 0⟩]) := by
  exact ⟨by decide, rfl⟩

/-- Claim C4 (amended): after the owner releases its lock, a subsequent
TryAcquire by any user succeeds; and after the expiry sweep has run past
the lock's expiry time, a subsequent TryAcquire by any user succeeds. The
mere passage of the expiry time, before the sweep deletes the row, does
not free the element. -/
theorem C4_release_or_sweep_frees (store : LockStore) (eid : String)
    (l : LockRec) (hget : getLockByElement store eid = GetResult.found l) :
    (∀ w d now, acquire_element_lock (release_element_lock store l.user eid)
      w d eid now =
      Except.ok (true, ⟨eid, d, w, now⟩ :: release_element_lock store l.user eid)) ∧
    (∀ now, l.locked_at + LOCK_EXPIRY_MINUTES < now →
      ∀ w d now2, acquire_element_lock (cleanup_expired_locks store now none).1
        w d eid now2 =
        Except.ok (true, ⟨eid, d, w, now2⟩ :: (cleanup_expired_locks store now none).1)) := by
  have hfil : store.filter (fun x => x.element_id == eid) = [l] :=
    (getOne_found_iff _ l).mp hget
  have honly : ∀ x ∈ store, (x.element_id == eid) = true → x = l := by
    intro x hx hpx
    have : x ∈ store.filter (fun y => y.element_id == eid) :=
      List.mem_filter.mpr ⟨hx, hpx⟩
    rw [hfil] at this
    simpa using this
  have hl : (l.element_id == eid) = true := by
    have hmem : l ∈ store.filter (fun x => x.element_id == eid) := by
      rw [hfil]
      exact List.mem_singleton_self l
    exact (List.mem_filter.mp hmem).2
  constructor
  · intro w d now
    refine acquire_creates_of_notFound _ w d eid now
      (getLockByElement_notFound_of_no_match _ eid ?_)
    intro x hx hpx
    have hxs := List.mem_filter.mp hx
    have hxl : x = l := honly x hxs.1 hpx
    rw [hxl] at hxs
    have hcond := hxs.2
    rw [hl] at hcond
    simp at hcond
  · intro now hexp w d now2
    refine acquire_creates_of_notFound _ w d eid now2
      (getLockByElement_notFound_of_no_match _ eid ?_)
    intro x hx hpx
    have hxs := List.mem_filter.mp hx
    have hxl : x = l := honly x hxs.1 hpx
    rw [hxl] at hxs
    have hcond := hxs.2
    have hsm : sweepMatch none (now - LOCK_EXPIRY_MINUTES) l = true := by
      unfold sweepMatch diagramMatches
      have : l.locked_at < now - LOCK_EXPIRY_MINUTES := by omega
      simp [this]
    simp only [cleanup_expired_locks] at hcond
    rw [hsm] at hcond
    simp at hcond

/-- Witness for C4 (amended): a sweep at time 100 reclaims the lock taken
at time 0, after which user 2 acquires the element. -/
theorem C4_witness :
    acquire_element_lock
      (cleanup_expired_locks [⟨"E1", 1, 1, 0⟩] 100 none).1 2 1 "E1" 100 =
      Except.ok (true,
        [⟨"E1", 1, 2, 100⟩] ++ (cleanup_expired_locks [⟨"E1", 1, 1, 0⟩] 100 none).1) := by
  exact (C4_release_or_sweep_frees [⟨"E1", 1, 1, 0⟩] "E1" ⟨"E1", 1, 1, 0⟩
    (by decide)).2 100 (by decide) 2 1 100

/-- Claim C5: the sweep removes exactly the expired locks. A lock whose
derived expiry locked_at plus 30 minutes is still in the future at sweep
time survives and is not broadcast — in particular a lock refreshed to a
recent locked_at before the sweep reads the table survives — while every
lock whose expiry lies in the past (within the swept diagram when one is
given) is deleted and appears in the broadcast list; the returned count
equals the number of released locks. -/
theorem C5_sweep_exact (store : LockStore) (now : Nat)
    (diagram? : Option Nat) :
    (∀ l ∈ store, now < l.locked_at + LOCK_EXPIRY_MINUTES →
      l ∈ (cleanup_expired_locks store now diagram?).1 ∧
      l ∉ (cleanup_expired_locks store now diagram?).2.1) ∧
    (∀ l ∈ store, l.locked_at + LOCK_EXPIRY_MINUTES < now →
      diagramMatches diagram? l = true →
      l ∉ (cleanup_expired_locks store now diagram?).1 ∧
      l ∈ (cleanup_expired_locks store now diagram?).2.1) ∧
    (cleanup_expired_locks store now diagram?).2.2 =
      (cleanup_expired_locks store now diagram?).2.1.length := by
  simp only [cleanup_expired_locks]
  refine ⟨?_, ?_, trivial⟩
  · intro l hl hfut
    have hsm : sweepMatch diagram? (now - LOCK_EXPIRY_MINUTES) l = false := by
      unfold sweepMatch
      have : ¬(l.locked_at < now - LOCK_EXPIRY_MINUTES) := by omega
      simp [this]
    constructor
    · exact List.mem_filter.mpr ⟨hl, by simp [hsm]⟩
    · intro hmem
      have := (List.mem_filter.mp hmem).2
      rw [hsm] at this
      cases this
  · intro l hl hpast hdm
    have hsm : sweepMatch diagram? (now - LOCK_EXPIRY_MINUTES) l = true := by
      unfold sweepMatch
      have : l.locked_at < now - LOCK_EXPIRY_MINUTES := by omega
      simp [this, hdm]
    constructor
    · intro hmem
      have := (List.mem_filter.mp hmem).2
      rw [hsm] at this
      simp at this
    · exact List.mem_filter.mpr ⟨hl, hsm⟩

/-- Witness for C5: at sweep time 40 the lock refreshed at time 20
survives and the lock from time 0 is released and counted. -/
theorem C5_witness :
    (⟨"E1", 1, 1, 20⟩ : LockRec) ∈
      (cleanup_expired_locks [⟨"E1", 1, 1, 20⟩, ⟨"E2", 1, 2, 0⟩] 40 none).1 ∧
    (⟨"E2", 1, 2, 0⟩ : LockRec) ∈
      (cleanup_expired_locks [⟨"E1", 1, 1, 20⟩, ⟨"E2", 1, 2, 0⟩] 40 none).2.1 := by
  have h := C5_sweep_exact [⟨"E1", 1, 1, 20⟩, ⟨"E2", 1, 2, 0⟩] 40 none
  refine ⟨(h.1 ⟨"E1", 1, 1, 20⟩ ?_ ?_).1, (h.2.1 ⟨"E2", 1, 2, 0⟩ ?_ ?_ ?_).2⟩
  · decide
  · decide
  · decide
  · decide
  · decide

/-- Claim C6: an element_update or element_delete intent from user B while
the target element is locked by a different user is answered with the
error Element is locked by another user to the sender only — no event is
broadcast and the lock table is unchanged; when the element is not locked
by another user the event is published to the room. -/
theorem C6_update_delete_lock_gate (store : LockStore) (b : Nat)
    (eid : String) :
    (∀ l, getLockByElement store eid = GetResult.found l → l.user ≠ b →
      receive_element_update store b (some eid) =
        (Reply.errorReply "Element is locked by another user", store) ∧
      receive_element_delete store b (some eid) =
        (Reply.errorReply "Element is locked by another user", store)) ∧
    (check_element_lock store b eid = Except.ok false →
      receive_element_update store b (some eid) =
        (Reply.broadcastUpdate eid, store) ∧
      receive_element_delete store b (some eid) =
        (Reply.broadcastDelete eid, store)) := by
  constructor
  · intro l hget hne
    have hb : (l.user != b) = true := by simpa using hne
    have hch : check_element_lock store b eid = Except.ok true := by
      unfold check_element_lock
      simp [hget, hb]
    constructor
    · simp [receive_element_update, handle_element_update, hch]
    · simp [receive_element_delete, handle_element_delete, hch]
  · intro hch
    constructor
    · simp [receive_element_update, handle_element_update, hch]
    · simp [receive_element_delete, handle_element_delete, hch]

/-- Witness for C6: with element E1 locked by user 1, user 2's update is
rejected with the lock error and its state untouched, while an update on
the unlocked element E2 is broadcast. -/
theorem C6_witness :
    receive_element_update [⟨"E1", 1, 1, 0⟩] 2 (some "E1") =
      (Reply.errorReply "Element is locked by another user", [⟨"E1", 1, 1, 0⟩]) ∧
    receive_element_update [⟨"E1", 1, 1, 0⟩] 2 (some "E2") =
      (Reply.broadcastUpdate "E2", [⟨"E1", 1, 1, 0⟩]) := by
  constructor
  · exact ((C6_update_delete_lock_gate [⟨"E1", 1, 1, 0⟩] 2 "E1").1
      ⟨"E1", 1, 1, 0⟩ (by decide) (by decide)).1
  · exact ((C6_update_delete_lock_gate [⟨"E1", 1, 1, 0⟩] 2 "E2").2 rfl).1

/-- Claim C10: lock checks and acquisitions match on element_id alone, not
on the (element_id, diagram_id) pair. If user V holds the single lock on
element E — taken in diagram D1 — then for any user U distinct from V
operating in any diagram D2, check_element_lock reports locked-by-other
and TryAcquire fails with no state change; and when rows with the same
element_id exist in two diagrams, the single-row lookup raises
MultipleObjectsReturned, surfacing as the Internal error reply instead of
normal lock semantics. -/
theorem C10_lock_matching_ignores_diagram (store : LockStore) (eid : String)
    (u : Nat) :
    (∀ l v d1, getLockByElement store eid = GetResult.found l → l.user = v →
      l.diagram_id = d1 → v ≠ u →
      check_element_lock store u eid = Except.ok true ∧
      ∀ d2 now, acquire_element_lock store u d2 eid now =
        Except.ok (false, store)) ∧
    (∀ l1 l2, l1 ∈ store → l2 ∈ store → l1.element_id = eid →
      l2.element_id = eid → l1.diagram_id ≠ l2.diagram_id →
      check_element_lock store u eid =
        Except.error "MultipleObjectsReturned" ∧
      (∀ d now, acquire_element_lock store u d eid now =
        Except.error "MultipleObjectsReturned") ∧
      receive_element_update store u (some eid) =
        (Reply.errorReply "Internal error", store)) := by
  constructor
  · intro l v d1 hget hv hd1 hne
    have hb : (l.user != u) = true := by
      rw [hv]
      simpa using hne
    have hbeq : (l.user == u) = false := by
      rw [hv]
      simp [hne]
    constructor
    · unfold check_element_lock
      simp [hget, hb]
    · intro d2 now
      unfold acquire_element_lock
      simp [hget, hbeq]
  · intro l1 l2 h1 h2 he1 he2 hdd
    have hne : l1 ≠ l2 := by
      intro h
      rw [h] at hdd
      exact hdd rfl
    have hmul : getLockByElement store eid = GetResult.multiple := by
      unfold getLockByElement
      refine getOne_multiple_of_two _ l1 l2 ?_ ?_ hne
      · exact List.mem_filter.mpr ⟨h1, by simp [he1]⟩
      · exact List.mem_filter.mpr ⟨h2, by simp [he2]⟩
    refine ⟨?_, ?_, ?_⟩
    · unfold check_element_lock
      simp [hmul]
    · intro d now
      unfold acquire_element_lock
      simp [hmul]
    · have hch : check_element_lock store u eid =
          Except.error "MultipleObjectsReturned" := by
        unfold check_element_lock
        simp [hmul]
      simp [receive_element_update, handle_element_update, hch]

/-- Witness for C10: user 2 in diagram 9 is blocked by user 1's lock taken
in diagram 1, and a duplicated element_id across diagrams 1 and 2 yields
the Internal error reply. -/
theorem C10_witness :
    check_element_lock [⟨"E1", 1, 1, 0⟩] 2 "E1" = Except.ok true ∧
    acquire_element_lock [⟨"E1", 1, 1, 0⟩] 2 9 "E1" 50 =
      Except.ok (false, [⟨"E1", 1, 1, 0⟩]) ∧
    receive_element_update [⟨"E1", 1, 1, 0⟩, ⟨"E1", 2, 3, 0⟩] 2 (some "E1") =
      (Reply.errorReply "Internal error", [⟨"E1", 1, 1, 0⟩, ⟨"E1", 2, 3, 0⟩]) := by
  have ha := (C10_lock_matching_ignores_diagram [⟨"E1", 1, 1, 0⟩] "E1" 2).1
    ⟨"E1", 1, 1, 0⟩ 1 1 (by decide) rfl rfl (by decide)
  have hb := (C10_lock_matching_ignores_diagram
    [⟨"E1", 1, 1, 0⟩, ⟨"E1", 2, 3, 0⟩] "E1" 2).2
    ⟨"E1", 1, 1, 0⟩ ⟨"E1", 2, 3, 0⟩ (by decide) (by decide) rfl rfl (by decide)
  exact ⟨ha.1, ha.2 9 50, hb.2.2⟩

/-- Claim C7: when the persistence step of a Notify call succeeds, a
failure of the real-time publish step never rolls back the persisted
record and never raises to the caller: create_notification still returns
the record, the record is in the table, the recipient's unread count
reflects it, and a later listing returns it. -/
theorem C7_publish_failure_keeps_record (store : NotifStore)
    (fresh recipient : Nat) (ntype title message : String) (now : Nat)
    (err : String) (limit : Nat) (hl : 1 ≤ limit) :
    create_notification store true fresh recipient ntype title message now
        (Except.error err) =
      ((⟨fresh, recipient, ntype, title, message, false, none, now⟩ : NotifRec)
        :: store,
       some ⟨fresh, recipient, ntype, title, message, false, none, now⟩) ∧
    get_unread_count
        ((⟨fresh, recipient, ntype, title, message, false, none, now⟩ : NotifRec)
          :: store) recipient =
      get_unread_count store recipient + 1 ∧
    (⟨fresh, recipient, ntype, title, message, false, none, now⟩ : NotifRec) ∈
      get_notifications
        ((⟨fresh, recipient, ntype, title, message, false, none, now⟩ : NotifRec)
          :: store) recipient limit none none := by
  refine ⟨rfl, ?_, ?_⟩
  · simp [get_unread_count, List.filter_cons]
  · unfold get_notifications
    rw [List.filter_cons]
    simp only [beq_self_eq_true, Bool.true_and, Bool.and_true, if_pos]
    cases limit with
    | zero => omega
    | succ k =>
      rw [List.take_succ_cons]
      exact List.mem_cons_self _ _

/-- Witness for C7 at a concrete failing publish. -/
theorem C7_witness :
    create_notification [] true 5 7 "project_invite" "t" "m" 3
        (Except.error "room empty") =
      ([⟨5, 7, "project_invite", "t", "m", false, none, 3⟩],
       some ⟨5, 7, "project_invite", "t", "m", false, none, 3⟩) ∧
    get_unread_count [⟨5, 7, "project_invite", "t", "m", false, none, 3⟩] 7 = 1 := by
  have h := C7_publish_failure_keeps_record [] 5 7 "project_invite" "t" "m" 3
    "room empty" 50 (by decide)
  exact ⟨h.1, by simpa using h.2.1⟩

/-- Claim C8 counterexample: the claim asserts that a Join immediately
followed by ListActive always includes the joining user. add_active_user
is get_or_create: with a stale presence row (last_seen 0) already present
for user 1 on diagram 7, the Join at time 100 returns the row untouched,
and the windowed ListActive at time 100 omits the user entirely. -/
theorem C8_counterexample :
    add_active_user [⟨1, 7, 0⟩] 1 7 100 = [⟨1, 7, 0⟩] ∧
    (⟨1, 7, 0⟩ : ActiveUserRec).last_seen + PRESENCE_WINDOW_MINUTES < 100 ∧
    get_active_users [⟨1, 7, 0⟩] 7 100 = [] := by
  exact ⟨rfl, by decide, rfl⟩

/-- Claim C8 (amended): the windowed ListActive never returns an entry
whose last_seen is older than the 5-minute window; and a Join immediately
followed by ListActive includes the joining user provided every
pre-existing presence row for that user and diagram has last_seen within
the window — Join creates a fresh row only when none exists and never
refreshes the last_seen of an existing row. -/
theorem C8_presence_window (store : List ActiveUserRec) (d now : Nat) :
    (∀ a ∈ get_active_users store d now,
      ¬(a.last_seen + PRESENCE_WINDOW_MINUTES < now)) ∧
    (∀ u, (∀ a ∈ store, a.user = u → a.diagram_id = d →
        now ≤ a.last_seen + PRESENCE_WINDOW_MINUTES) →
      ∃ a ∈ get_active_users (add_active_user store u d now) d now,
        a.user = u) := by
  constructor
  · intro a ha
    have h2 := (List.mem_filter.mp ha).2
    have : now - PRESENCE_WINDOW_MINUTES ≤ a.last_seen := by
      have := (Bool.and_eq_true _ _).mp h2
      exact of_decide_eq_true this.2
    omega
  · intro u hfresh
    unfold add_active_user
    by_cases hany : store.any (fun a => a.user == u && a.diagram_id == d) = true
    · rw [if_pos hany]
      obtain ⟨a0, ha0, hpa⟩ := List.any_eq_true.mp hany
      have hud : a0.user = u ∧ a0.diagram_id = d := by
        have := (Bool.and_eq_true _ _).mp hpa
        exact ⟨by simpa using this.1, by simpa using this.2⟩
      refine ⟨a0, ?_, hud.1⟩
      refine List.mem_filter.mpr ⟨ha0, ?_⟩
      have hnow := hfresh a0 ha0 hud.1 hud.2
      have hcut : now - PRESENCE_WINDOW_MINUTES ≤ a0.last_seen := by omega
      simp [hud.2, hcut]
    · rw [if_neg hany]
      refine ⟨⟨u, d, now⟩, ?_, rfl⟩
      refine List.mem_filter.mpr ⟨List.mem_cons_self _ _, ?_⟩
      have hcut : now - PRESENCE_WINDOW_MINUTES ≤ now := Nat.sub_le now _
      simp [hcut]

/-- Witness for C8 (amended): a first Join of user 1 on diagram 7 at time
100 is visible in the immediate ListActive. -/
theorem C8_witness :
    ∃ a ∈ get_active_users (add_active_user [] 1 7 100) 7 100, a.user = 1 := by
  exact (C8_presence_window [] 7 100).2 1 (by intro a ha; cases ha)

/-- After the bulk update touches a row, the row no longer matches the
unread filter. -/
theorem notifMatches_after_update (user : Nat) (ids? : Option (List Nat))
    (now : Nat) (n : NotifRec) :
    notifMatches user ids? (markReadUpdate user ids? now n) = false := by
  cases hb : notifMatches user ids? n with
  | false => simp [markReadUpdate, hb]
  | true =>
    unfold markReadUpdate
    rw [if_pos hb]
    unfold notifMatches
    simp

/-- The bulk update is pointwise idempotent, even across two sweep times. -/
theorem markReadUpdate_idem (user : Nat) (ids? : Option (List Nat))
    (t1 t2 : Nat) (n : NotifRec) :
    markReadUpdate user ids? t2 (markReadUpdate user ids? t1 n) =
      markReadUpdate user ids? t1 n := by
  have h := notifMatches_after_update user ids? t1 n
  unfold markReadUpdate
  rw [markReadUpdate] at h
  rw [if_neg ?_]
  intro hc
  rw [hc] at h
  cases h

/-- Mapping the bulk update a second time changes nothing. -/
theorem markRead_map_idem (user : Nat) (ids? : Option (List Nat))
    (t1 t2 : Nat) (s : NotifStore) :
    (s.map (markReadUpdate user ids? t1)).map (markReadUpdate user ids? t2) =
      s.map (markReadUpdate user ids? t1) := by
  induction s with
  | nil => rfl
  | cons a t ih => simp [ih, markReadUpdate_idem]

/-- After the first bulk update, the unread filter selects no row. -/
theorem markRead_filter_empty (user : Nat) (ids? : Option (List Nat))
    (t1 : Nat) (s : NotifStore) :
    (s.map (markReadUpdate user ids? t1)).filter (notifMatches user ids?) = [] := by
  induction s with
  | nil => rfl
  | cons a t ih =>
    simp only [List.map_cons, List.filter_cons, notifMatches_after_update]
    simpa using ih

/-- Claim C9: MarkRead is idempotent. For every user and id selection,
running mark_notifications_read twice yields the same notification table
as running it once, and the second run reports 0 mutated rows, every
targeted row being already read. -/
theorem C9_mark_read_idempotent (store : NotifStore) (user : Nat)
    (ids? : Option (List Nat)) (t1 t2 : Nat) :
    mark_notifications_read
        (mark_notifications_read store user ids? t1).1 user ids? t2 =
      ((mark_notifications_read store user ids? t1).1, 0) := by
  unfold mark_notifications_read
  rw [markRead_map_idem, markRead_filter_empty]
  rfl

end Collab
